import Mathlib

/-!
Verification of `backend/main.py` of the AI-Dashboard-Generator service.

The Python source is shallowly embedded: pure functions become Lean
functions, the single request handler becomes a function from an explicit
environment (the three external inputs it reads: the `MOCK_DASHBOARD`
variable, the `OPENAI_API_KEY` variable, and the content of the fallback
`openai_key.txt` file) and the outcome of the one upstream completion call
to a result value.  Fallible steps return `Option`/`Except`; an uncaught
Python exception (e.g. the `KeyError` from `dashboard_json["dashboard"]`)
is modelled as a distinguished server-error result, which FastAPI maps to
HTTP 500.

Numeric modelling notes:
* `round(x, 3)` on the missing fraction is modelled as exact half-even
  rounding of the exact rational to 3 decimals (`round3Frac`); the decision
  logic is carried out on natural numbers and only the final value is a
  rational, so concrete instances evaluate.
* Python's float division in the categorical heuristic is modelled as exact
  rational division.
-/

namespace DashGen

/-- Python `str` whitespace (the ASCII part), as used by `str.strip()`. -/
def isPyWs (c : Char) : Bool :=
  c = ' ' || c = '\t' || c = '\n' || c = '\r' || c = '\x0b' || c = '\x0c'

/-- Python `str.strip()` (ASCII whitespace): drop leading and trailing whitespace. -/
def pyStrip (s : String) : String :=
  String.mk (((s.toList.dropWhile isPyWs).reverse.dropWhile isPyWs).reverse)

/-- ASCII lowering of one character, as Python `str.lower()` does on ASCII text. -/
def pyLowerChar (c : Char) : Char :=
  if 'A' ≤ c ∧ c ≤ 'Z' then Char.ofNat (c.toNat + 32) else c

/-- Python `str.lower()` restricted to ASCII, which covers every string the code lowers. -/
def pyLower (s : String) : String := String.mk (s.toList.map pyLowerChar)

/-- Python `round(num/den, 3)`: half-even rounding of the exact fraction to
3 decimal places.  All comparisons happen on naturals; only the result is a
rational. -/
def round3Frac (num den : Nat) : ℚ :=
  let scaled := num * 1000
  let q := scaled / den
  let r := scaled % den
  let k := if 2 * r < den then q else if den < 2 * r then q + 1 else if q % 2 = 0 then q else q + 1
  (k : ℚ) / 1000

/-- One pandas column: its label, the textual name of its storage dtype
(`str(ser.dtype)`), and its cells, where `none` models a missing value (NaN). -/
structure Column (α : Type) where
  name : String
  dtype : String
  cells : List (Option α)

/-- A pandas DataFrame: `nrows = len(df)` and the columns, each holding one
cell per row. -/
structure DataFrame (α : Type) where
  nrows : Nat
  cols : List (Column α)
  wf : ∀ c ∈ cols, c.cells.length = nrows

/-- `ser.dropna()`: the non-missing cells, in order. -/
def dropna {α : Type} (cells : List (Option α)) : List α := cells.filterMap id

/-- `ser.unique()` on already non-missing values: distinct values in order of
first appearance. -/
def uniqueInOrder {α : Type} [DecidableEq α] (l : List α) : List α :=
  l.foldl (fun acc x => if x ∈ acc then acc else acc ++ [x]) []

/-- One entry of the `schema` list built by `infer_schema`. -/
structure ColProfile (α : Type) where
  name : String
  dtype : String
  nunique : Nat
  missing_pct : ℚ
  samples : List α
  likely_categorical : Bool

/-- The per-column body of the loop in `infer_schema` (main.py lines 58-73):
`ser = df_sample[col]` is the first `sampleRows` cells of the column;
`nunique = ser.nunique(dropna=True)`; `missing_pct = ser.isna().mean()` when
`total > 0` else `0.0`, stored as `round(missing_pct, 3)`;
`samples = ser.dropna().unique().tolist()[:5]`;
`likely_categorical = (nunique / max(total, 1) < 0.05) or (nunique <= 50)`. -/
def profileColumn {α : Type} [DecidableEq α] (total sampleRows : Nat) (c : Column α) :
    ColProfile α :=
  let ser := c.cells.take sampleRows
  let distinct := uniqueInOrder (dropna ser)
  let nunique := distinct.length
  { name := c.name
    dtype := c.dtype
    nunique := nunique
    missing_pct :=
      if 0 < total then round3Frac (ser.countP Option.isNone) ser.length else 0
    samples := distinct.take 5
    likely_categorical :=
      decide ((nunique : ℚ) / ((max total 1 : ℕ) : ℚ) < 1 / 20) || decide (nunique ≤ 50) }

/-- `infer_schema(df, sample_n)` (main.py lines 54-74): `rows = min(len(df),
sample_n)`, `df_sample = df.head(rows)`, `total = len(df)`, one profile per
column.  The second Python return value, `df_sample.to_csv(index=False)`, is
a serialization of the same sample window that no claim refers to and is not
modelled. -/
def infer_schema {α : Type} [DecidableEq α] (df : DataFrame α) (sample_n : Nat) :
    List (ColProfile α) :=
  let rows := min df.nrows sample_n
  df.cols.map (profileColumn df.nrows rows)

/-- A 2-row, 1-column frame whose second cell is missing; used to separate
the sample-window missing fraction from the full-table missing fraction. -/
def cA : Column Int := { name := "a", dtype := "float64", cells := [some 1, none] }

/-- The frame around `cA`. -/
def dfC1 : DataFrame Int := { nrows := 2, cols := [cA], wf := by decide }

/-- The profile `infer_schema` computes for `cA` with `sample_n = 1`. -/
def pA : ColProfile Int := profileColumn 2 1 cA

/-- C1 counterexample: on a 2-row table whose second row is missing,
`infer_schema` with `sample_n = 1` reports `missing_pct = 0` while
`sample_n = 2` reports `1/2`, and `nunique` is unchanged — so shrinking
`sample_size` does change `missing_fraction`, refuting the claim that it is
computed over the full table. -/
theorem missing_pct_shrink_counterexample :
    ((infer_schema dfC1 1).map (fun p => p.missing_pct) = [0])
    ∧ ((infer_schema dfC1 2).map (fun p => p.missing_pct) = [(1 : ℚ) / 2])
    ∧ ((infer_schema dfC1 1).map (fun p => p.nunique)
        = (infer_schema dfC1 2).map (fun p => p.nunique)) := by
  refine ⟨?_, ?_, by decide⟩ <;>
    norm_num [infer_schema, profileColumn, dfC1, cA, round3Frac, dropna, uniqueInOrder]

/-- C1 (amended): each column's `missing_pct` is the (half-even, 3-decimal
rounded) fraction of missing cells within the SAMPLE window — the first
`min(total, sample_size)` rows — not over the full table, and it is `0` when
the table is empty; shrinking `sample_size` may therefore change it. -/
theorem missing_pct_is_sample_window_fraction {α : Type} [DecidableEq α]
    (df : DataFrame α) (sample_n i : Nat) (p : ColProfile α) (c : Column α)
    (hc : df.cols[i]? = some c)
    (hp : (infer_schema df sample_n)[i]? = some p) :
    p.missing_pct =
      if 0 < df.nrows then
        round3Frac ((c.cells.take (min df.nrows sample_n)).countP Option.isNone)
          ((c.cells.take (min df.nrows sample_n)).length)
      else 0 := by
  simp only [infer_schema, List.getElem?_map, hc, Option.map_some'] at hp
  obtain rfl : profileColumn df.nrows (min df.nrows sample_n) c = p :=
    Option.some_injective _ hp
  simp [profileColumn]

/-- Witness for the amended C1 theorem at the concrete frame `dfC1`. -/
theorem missing_pct_is_sample_window_fraction_witness :
    dfC1.cols[0]? = some cA ∧ (infer_schema dfC1 1)[0]? = some pA ∧
    pA.missing_pct =
      if 0 < dfC1.nrows then
        round3Frac ((cA.cells.take (min dfC1.nrows 1)).countP Option.isNone)
          ((cA.cells.take (min dfC1.nrows 1)).length)
      else 0 :=
  ⟨rfl, rfl, missing_pct_is_sample_window_fraction dfC1 1 0 pA cA rfl rfl⟩

/-- C5: an empty table (`total = 0`) produces exactly one profile per column,
each with `nunique = 0`, `missing_pct = 0` (and empty `samples`); nothing
raises — the embedding is total. -/
theorem infer_schema_empty_table {α : Type} [DecidableEq α]
    (df : DataFrame α) (sample_n : Nat) (h : df.nrows = 0) :
    (infer_schema df sample_n).length = df.cols.length
    ∧ ∀ p ∈ infer_schema df sample_n,
        p.nunique = 0 ∧ p.missing_pct = 0 ∧ p.samples = [] := by
  constructor
  · simp [infer_schema]
  · intro p hp
    simp only [infer_schema, h, Nat.zero_min, List.mem_map] at hp
    obtain ⟨c, _, rfl⟩ := hp
    simp [profileColumn, dropna, uniqueInOrder]

/-- An empty single-column frame. -/
def dfEmpty : DataFrame Int :=
  { nrows := 0, cols := [{ name := "a", dtype := "object", cells := [] }], wf := by decide }

/-- Witness for the empty-table theorem at the concrete frame `dfEmpty`. -/
theorem infer_schema_empty_table_witness :
    (infer_schema dfEmpty 200).length = dfEmpty.cols.length
    ∧ ∀ p ∈ infer_schema dfEmpty 200,
        p.nunique = 0 ∧ p.missing_pct = 0 ∧ p.samples = [] :=
  infer_schema_empty_table dfEmpty 200 rfl

/-- C6: `likely_categorical` holds iff `nunique / max(total, 1) < 1/20` OR
`nunique ≤ 50`; in particular it is true whenever `nunique ≤ 50`, whatever
the table size. -/
theorem likely_categorical_iff {α : Type} [DecidableEq α]
    (df : DataFrame α) (sample_n i : Nat) (p : ColProfile α)
    (hp : (infer_schema df sample_n)[i]? = some p) :
    (p.likely_categorical = true ↔
      ((p.nunique : ℚ) / ((max df.nrows 1 : ℕ) : ℚ) < 1 / 20 ∨ p.nunique ≤ 50))
    ∧ (p.nunique ≤ 50 → p.likely_categorical = true) := by
  have hex : ∃ c, df.cols[i]? = some c
      ∧ profileColumn df.nrows (min df.nrows sample_n) c = p := by
    simpa [infer_schema, List.getElem?_map, Option.map_eq_some'] using hp
  obtain ⟨c, _, rfl⟩ := hex
  constructor
  · simp [profileColumn]
  · intro h
    simp only [profileColumn] at h ⊢
    simp [h]

/-- A 10,000-row column with exactly 50 distinct values: the first 200 rows
cycle through 0..49 and the remaining 9,800 rows repeat 0. -/
def colBig : Column Int :=
  { name := "cat", dtype := "int64"
    cells := (List.range 200).map (fun k => some ((k % 50 : Nat) : Int))
      ++ List.replicate 9800 (some 0) }

/-- The 10,000-row frame around `colBig`. -/
def dfBig : DataFrame Int :=
  { nrows := 10000, cols := [colBig]
    wf := by
      intro c hc
      simp only [List.mem_singleton] at hc
      subst hc
      simp only [colBig]
      rw [List.length_append, List.length_map, List.length_range, List.length_replicate] }

/-- The profile `infer_schema` computes for `colBig` with the fixed sample size 200. -/
def pBig : ColProfile Int := profileColumn 10000 200 colBig

set_option maxRecDepth 16000 in
/-- Witness for the categorical heuristic at the 10,000-row frame with 50
distinct values: the profile is categorical. -/
theorem likely_categorical_iff_witness :
    ((pBig.likely_categorical = true ↔
        ((pBig.nunique : ℚ) / ((max dfBig.nrows 1 : ℕ) : ℚ) < 1 / 20 ∨ pBig.nunique ≤ 50))
      ∧ (pBig.nunique ≤ 50 → pBig.likely_categorical = true))
    ∧ pBig.likely_categorical = true := by
  have h := likely_categorical_iff dfBig 200 0 pBig rfl
  exact ⟨h, h.2 (by decide)⟩

/-- A parsed JSON value, as produced by Python's `json.loads`.  An object
keeps its members in textual order (Python dicts preserve insertion order);
number literals are modelled as integers — no value the service or its mock
dashboard manipulates is fractional, and a fractional literal simply makes
the surrounding parse fail in this model. -/
inductive Json where
  | null
  | bool (b : Bool)
  | num (n : Int)
  | str (s : String)
  | arr (elems : List Json)
  | obj (fields : List (String × Json))

/-- JSON insignificant whitespace, as accepted between tokens by `json.loads`. -/
def isJsonWs (c : Char) : Bool :=
  c = ' ' || c = '\t' || c = '\n' || c = '\r'

/-- Drop leading JSON whitespace. -/
def skipWs : List Char → List Char
  | [] => []
  | c :: cs => if isJsonWs c then skipWs cs else c :: cs

/-- Read a maximal run of decimal digits, accumulating their value. -/
def readDigitsAux : List Char → Nat → Nat × List Char
  | [], acc => (acc, [])
  | c :: cs, acc =>
    if c.isDigit then readDigitsAux cs (10 * acc + (c.toNat - 48)) else (acc, c :: cs)

/-- Read an optionally signed integer literal (at least one digit). -/
def readInt? : List Char → Option (Int × List Char)
  | '-' :: c :: rest =>
    if c.isDigit then
      let p := readDigitsAux rest (c.toNat - 48)
      some (-(p.1 : Int), p.2)
    else none
  | c :: rest =>
    if c.isDigit then
      let p := readDigitsAux rest (c.toNat - 48)
      some ((p.1 : Int), p.2)
    else none
  | [] => none

/-- Read the body of a JSON string literal (the opening quote already
consumed), handling the single-character escapes; `\u` escapes are not
modelled — they occur in none of the strings the service handles. -/
def parseStrAux : List Char → List Char → Option (String × List Char)
  | acc, '"' :: cs => some (String.mk acc.reverse, cs)
  | acc, '\\' :: c :: cs =>
    let esc : Option Char :=
      if c = '"' then some '"'
      else if c = '\\' then some '\\'
      else if c = '/' then some '/'
      else if c = 'n' then some '\n'
      else if c = 't' then some '\t'
      else if c = 'r' then some '\r'
      else if c = 'b' then some '\x08'
      else if c = 'f' then some '\x0c'
      else none
    match esc with
    | some e => parseStrAux (e :: acc) cs
    | none => none
  | acc, c :: cs => parseStrAux (c :: acc) cs
  | _, [] => none

mutual

/-- Parse one JSON value; the fuel bounds nesting depth and is decremented on
every descent, so any fuel exceeding the input length is enough. -/
def parseValue : Nat → List Char → Option (Json × List Char)
  | 0, _ => none
  | fuel + 1, cs =>
    match skipWs cs with
    | [] => none
    | c :: rest =>
      if c = '\x7b' then
        match skipWs rest with
        | '\x7d' :: r2 => some (Json.obj [], r2)
        | _ => parseMembers fuel rest []
      else if c = '[' then
        match skipWs rest with
        | ']' :: r2 => some (Json.arr [], r2)
        | _ => parseElems fuel rest []
      else if c = '"' then
        match parseStrAux [] rest with
        | some (s, r) => some (Json.str s, r)
        | none => none
      else if c = 't' then
        if ['r', 'u', 'e'].isPrefixOf rest then some (Json.bool true, rest.drop 3) else none
      else if c = 'f' then
        if ['a', 'l', 's', 'e'].isPrefixOf rest then some (Json.bool false, rest.drop 4) else none
      else if c = 'n' then
        if ['u', 'l', 'l'].isPrefixOf rest then some (Json.null, rest.drop 3) else none
      else
        match readInt? (c :: rest) with
        | some (n, r) => some (Json.num n, r)
        | none => none

/-- Parse the members of an object after its `\x7b`, accumulating pairs. -/
def parseMembers : Nat → List Char → List (String × Json) → Option (Json × List Char)
  | 0, _, _ => none
  | fuel + 1, cs, acc =>
    match skipWs cs with
    | '"' :: rest =>
      match parseStrAux [] rest with
      | some (k, r1) =>
        match skipWs r1 with
        | ':' :: r2 =>
          match parseValue fuel r2 with
          | some (v, r3) =>
            match skipWs r3 with
            | ',' :: r4 => parseMembers fuel r4 (acc ++ [(k, v)])
            | '\x7d' :: r4 => some (Json.obj (acc ++ [(k, v)]), r4)
            | _ => none
          | none => none
        | _ => none
      | none => none
    | _ => none

/-- Parse the elements of an array after its `[`, accumulating values. -/
def parseElems : Nat → List Char → List Json → Option (Json × List Char)
  | 0, _, _ => none
  | fuel + 1, cs, acc =>
    match parseValue fuel cs with
    | some (v, r1) =>
      match skipWs r1 with
      | ',' :: r2 => parseElems fuel r2 (acc ++ [v])
      | ']' :: r2 => some (Json.arr (acc ++ [v]), r2)
      | _ => none
    | none => none

end

/-- `json.loads`: parse one JSON document and require that only whitespace
follows it; `none` models the `json.JSONDecodeError` path. -/
def json_loads (s : String) : Option Json :=
  match parseValue (s.length + 1) s.toList with
  | some (v, rest) => if (skipWs rest).isEmpty then some v else none
  | none => none

/-- Python `sub in s` on strings: `sub` occurs contiguously in `s`. -/
def hasSub (sub : List Char) : List Char → Bool
  | [] => sub.isEmpty
  | x :: xs => sub.isPrefixOf (x :: xs) || hasSub sub xs

/-- Python `sub in s` lifted to `String`. -/
def strContains (s sub : String) : Bool := hasSub sub.toList s.toList

/-- The greedy search `re.search(r"(\x7b(?:.|\n)*\x7d)", content)`: the
leftmost match of the pattern runs from the first brace that has a closing
brace after it — i.e. the first opening brace, whenever the last closing
brace lies beyond it — to the last closing brace of the whole text. -/
def extractBraceSpan (s : String) : Option String :=
  let cs := s.toList
  match cs.findIdx? (fun c => c = '\x7b'), cs.reverse.findIdx? (fun c => c = '\x7d') with
  | some i, some rj =>
    let j := cs.length - 1 - rj
    if i < j then some (String.mk ((cs.drop i).take (j - i + 1))) else none
  | _, _ => none

/-- The three external inputs `generate_dashboard` reads besides the request
itself: the `MOCK_DASHBOARD` variable, the `OPENAI_API_KEY` variable
(`none` = unset), and the content of `backend/../openai_key.txt` (`none` =
missing or unreadable). -/
structure Env where
  MOCK_DASHBOARD : Option String
  OPENAI_API_KEY : Option String
  openai_key_txt : Option String

/-- The `try: open(...)` fallback inside `load_openai_key` (main.py lines
22-29): a readable file whose stripped content is non-empty yields that
content; an empty/blank file falls through, and a missing file's exception
is swallowed — both yield nothing. -/
def readKeyFallback : Option String → Option String
  | some content => if pyStrip content = "" then none else some (pyStrip content)
  | none => none

/-- `load_openai_key()` (main.py lines 16-31): a truthy `OPENAI_API_KEY`
(set and non-empty) is returned stripped; otherwise the fallback file is
consulted; otherwise `None` — no exception escapes. -/
def load_openai_key (env : Env) : Option String :=
  match env.OPENAI_API_KEY with
  | some key => if key = "" then readKeyFallback env.openai_key_txt else some (pyStrip key)
  | none => readKeyFallback env.openai_key_txt

/-- An `HTTPException(status_code, detail)`. -/
structure HTTPError where
  status_code : Nat
  detail : String

/-- The detail string of the missing-credential error in `get_openai_client`. -/
def keyMissingDetail : String :=
  "OPENAI_API_KEY not set. Set environment variable OPENAI_API_KEY or place the key in backend/.env or backend/../openai_key.txt (untracked)."

/-- `get_openai_client()` (main.py lines 34-42): a falsy resolved key (`None`
or `""`) raises HTTP 500; otherwise the client — represented by the key it
is constructed from — is returned. -/
def get_openai_client (env : Env) : Except HTTPError String :=
  match load_openai_key env with
  | some key => if key = "" then Except.error ⟨500, keyMissingDetail⟩ else Except.ok key
  | none => Except.error ⟨500, keyMissingDetail⟩

/-- The `except Exception as e` classifier around the completion call
(main.py lines 194-219), dispatching on `se = str(e)`: quota/rate-limit
markers first (429), then auth markers on the lowered text (401), else 502. -/
def classifyUpstreamError (se : String) : HTTPError :=
  if strContains se "insufficient_quota" || strContains se "quota" || strContains se "429" then
    ⟨429, "OpenAI request failed (quota/rate-limit): " ++ se⟩
  else if strContains se "401" || strContains (pyLower se) "unauthorized"
      || strContains (pyLower se) "invalid_api_key" || strContains (pyLower se) "invalid" then
    ⟨401, "OpenAI request failed (auth): " ++ se⟩
  else
    ⟨502, "OpenAI request failed: " ++ se⟩

/-- Parsing of the model text (main.py lines 225-241): direct `json.loads`
first; on failure the greedy brace-span extraction, parsed in turn; a failed
or impossible extraction is a 502. -/
def parseModelOutput (content : String) : Except HTTPError Json :=
  match json_loads content with
  | some j => Except.ok j
  | none =>
    match extractBraceSpan content with
    | some span =>
      match json_loads span with
      | some j => Except.ok j
      | none =>
        Except.error
          ⟨502, "Model returned text but JSON extraction failed. Raw model output included."⟩
    | none => Except.error ⟨502, "Failed to parse JSON from model output."⟩

/-- Subscripting a parsed value by a string key, as `dashboard_json["dashboard"]`
does on a dict (last duplicate wins, as in `json.loads`); `none` covers both
the `KeyError` on a dict and the `TypeError` on a non-dict, each an uncaught
exception in the handler. -/
def jsonLookup (j : Json) (k : String) : Option Json :=
  match j with
  | Json.obj fields => (fields.reverse.find? (fun p => p.1 == k)).map (fun p => p.2)
  | _ => none

/-- The outcome of one request: a JSON envelope, a raised `HTTPException`,
or an uncaught Python exception (which FastAPI surfaces as HTTP 500). -/
inductive HandlerResult where
  | ok (envelope : Json)
  | httpError (e : HTTPError)
  | serverError (msg : String)

/-- The final lines of the handler (main.py line 243): build the envelope
from the `dashboard` member, or fail with the uncaught `KeyError`. -/
def envelopeStep (j : Json) : HandlerResult :=
  match jsonLookup j "dashboard" with
  | some d => HandlerResult.ok (Json.obj [("dashboard", d)])
  | none => HandlerResult.serverError "KeyError: dashboard"

/-- The canned dashboard of the mock branch (main.py lines 135-176), verbatim. -/
def mock_dashboard (intent : String) : Json :=
  Json.obj
    [("title", Json.str "Mock Dashboard"),
     ("description", Json.str ("Mock generated for intent: " ++ intent)),
     ("filters", Json.arr []),
     ("layout", Json.obj [("columns", Json.num 2)]),
     ("views", Json.arr
       [Json.obj
         [("id", Json.str "v1"),
          ("title", Json.str "Mock Time Series"),
          ("vega_lite", Json.obj
            [("$schema", Json.str "https://vega.github.io/schema/vega-lite/v5.json"),
             ("data", Json.obj
               [("values", Json.arr
                 [Json.obj [("date", Json.str "2025-10-01"), ("amount", Json.num 100)],
                  Json.obj [("date", Json.str "2025-10-02"), ("amount", Json.num 150)],
                  Json.obj [("date", Json.str "2025-10-03"), ("amount", Json.num 120)]])]),
             ("mark", Json.str "line"),
             ("encoding", Json.obj
               [("x", Json.obj [("field", Json.str "date"), ("type", Json.str "temporal")]),
                ("y", Json.obj
                  [("field", Json.str "amount"), ("type", Json.str "quantitative")])])])],
        Json.obj
         [("id", Json.str "v2"),
          ("title", Json.str "Mock Category Breakdown"),
          ("vega_lite", Json.obj
            [("$schema", Json.str "https://vega.github.io/schema/vega-lite/v5.json"),
             ("data", Json.obj
               [("values", Json.arr
                 [Json.obj [("category", Json.str "A"), ("value", Json.num 60)],
                  Json.obj [("category", Json.str "B"), ("value", Json.num 30)],
                  Json.obj [("category", Json.str "C"), ("value", Json.num 10)]])]),
             ("mark", Json.str "arc"),
             ("encoding", Json.obj
               [("theta", Json.obj
                  [("field", Json.str "value"), ("type", Json.str "quantitative")]),
                ("color", Json.obj
                  [("field", Json.str "category"), ("type", Json.str "nominal")])])])]])]

/-- The `MOCK_DASHBOARD` test `os.getenv("MOCK_DASHBOARD", "false").lower()
in ("1", "true", "yes")` (main.py line 132). -/
def isMockEnabled (env : Env) : Bool :=
  let v := pyLower (env.MOCK_DASHBOARD.getD "false")
  v = "1" || v = "true" || v = "yes"

/-- The request handler `generate_dashboard` from the mock-mode branch on
(main.py lines 132-243).  The ingest/profile/prompt steps preceding it are
pure and feed only the prompt, which the abstract `upstream` argument —
either the exception text `str(e)` of a failed completion call or the
returned message content — already absorbs, so the handler is a function of
the environment, the intent, and that upstream outcome. -/
def generate_dashboard (env : Env) (intent : String) (upstream : Except String String) :
    HandlerResult :=
  if isMockEnabled env then
    HandlerResult.ok (Json.obj [("dashboard", mock_dashboard intent)])
  else
    match get_openai_client env with
    | Except.error e => HandlerResult.httpError e
    | Except.ok _client =>
      match upstream with
      | Except.error se => HandlerResult.httpError (classifyUpstreamError se)
      | Except.ok content =>
        match parseModelOutput content with
        | Except.error e => HandlerResult.httpError e
        | Except.ok j => envelopeStep j

/-- A live-mode environment with a set key, used to instantiate the handler theorems. -/
def envLive : Env := { MOCK_DASHBOARD := none, OPENAI_API_KEY := some "sk-test", openai_key_txt := none }

/-- An environment with `MOCK_DASHBOARD=YES` and no credential anywhere. -/
def envMock : Env := { MOCK_DASHBOARD := some "YES", OPENAI_API_KEY := none, openai_key_txt := none }

/-- An environment with no credential in the variable or the fallback file. -/
def envNoKey : Env := { MOCK_DASHBOARD := none, OPENAI_API_KEY := none, openai_key_txt := none }

/-- An environment whose key variable is whitespace-only while the fallback
file holds a valid key. -/
def envWs : Env := { MOCK_DASHBOARD := none, OPENAI_API_KEY := some "   ", openai_key_txt := some "sk-valid-key" }

/-- An environment whose key variable is set with surrounding whitespace. -/
def envPad : Env := { MOCK_DASHBOARD := none, OPENAI_API_KEY := some " sk ", openai_key_txt := none }

/-- The round-trip model output `\x7b"dashboard": \x7b"title": "T"\x7d\x7d`, parsed. -/
def jRT : Json := Json.obj [("dashboard", Json.obj [("title", Json.str "T")])]

/-- C3: with the mock toggle set to any truthy form ("1"/"true"/"yes" after
lowering, so also "YES"), the handler returns the canned dashboard under the
envelope, for EVERY upstream outcome and every credential configuration —
neither the credential resolver nor the completion call is consulted. -/
theorem mock_mode_bypasses_upstream (env : Env) (intent v : String)
    (upstream : Except String String)
    (hv : env.MOCK_DASHBOARD = some v)
    (ht : pyLower v = "1" ∨ pyLower v = "true" ∨ pyLower v = "yes") :
    generate_dashboard env intent upstream
      = HandlerResult.ok (Json.obj [("dashboard", mock_dashboard intent)]) := by
  have hm : isMockEnabled env = true := by
    rcases ht with h | h | h <;> simp [isMockEnabled, hv, h]
  simp [generate_dashboard, hm]

/-- Witness: `MOCK_DASHBOARD=YES` returns the mock dashboard even though the
upstream call would fail and no credential exists. -/
theorem mock_mode_bypasses_upstream_witness :
    generate_dashboard envMock "show sales" (Except.error "no network")
      = HandlerResult.ok (Json.obj [("dashboard", mock_dashboard "show sales")]) :=
  mock_mode_bypasses_upstream envMock "show sales" "YES" (Except.error "no network") rfl
    (Or.inr (Or.inr rfl))

/-- C2: when the completion call raises, the handler classifies the message
text in order — quota markers to 429, then auth markers to 401, else 502. -/
theorem upstream_error_classification (env : Env) (intent se k : String)
    (hm : isMockEnabled env = false)
    (hk : get_openai_client env = Except.ok k) :
    generate_dashboard env intent (Except.error se)
      = HandlerResult.httpError
          (if strContains se "insufficient_quota" || strContains se "quota"
              || strContains se "429" then
            ⟨429, "OpenAI request failed (quota/rate-limit): " ++ se⟩
          else if strContains se "401" || strContains (pyLower se) "unauthorized"
              || strContains (pyLower se) "invalid_api_key"
              || strContains (pyLower se) "invalid" then
            ⟨401, "OpenAI request failed (auth): " ++ se⟩
          else ⟨502, "OpenAI request failed: " ++ se⟩) := by
  simp [generate_dashboard, hm, hk, classifyUpstreamError]

/-- Witness: a quota-marked upstream failure is surfaced as HTTP 429. -/
theorem upstream_error_classification_witness :
    generate_dashboard envLive "sales by month" (Except.error "Error 429: insufficient_quota")
      = HandlerResult.httpError
          ⟨429, "OpenAI request failed (quota/rate-limit): Error 429: insufficient_quota"⟩ :=
  (upstream_error_classification envLive "sales by month" "Error 429: insufficient_quota"
      (pyStrip "sk-test") rfl rfl).trans rfl

/-- C4: once the model output parses to `j`, the handler returns the envelope
`\x7b dashboard: j["dashboard"] \x7d` when the `dashboard` key is present, and
otherwise the uncaught lookup failure (a server error), never a default. -/
theorem envelope_from_dashboard_key (env : Env) (intent content k : String) (j : Json)
    (hm : isMockEnabled env = false)
    (hk : get_openai_client env = Except.ok k)
    (hp : parseModelOutput content = Except.ok j) :
    generate_dashboard env intent (Except.ok content)
      = match jsonLookup j "dashboard" with
        | some d => HandlerResult.ok (Json.obj [("dashboard", d)])
        | none => HandlerResult.serverError "KeyError: dashboard" := by
  simp [generate_dashboard, hm, hk, hp, envelopeStep]

/-- Witness: the model response with a `dashboard` whose title is "T"
round-trips to an envelope whose `dashboard.title` is "T". -/
theorem envelope_from_dashboard_key_witness :
    generate_dashboard envLive "i" (Except.ok "\x7b\"dashboard\": \x7b\"title\": \"T\"\x7d\x7d")
      = HandlerResult.ok (Json.obj [("dashboard", Json.obj [("title", Json.str "T")])])
    ∧ jsonLookup (Json.obj [("title", Json.str "T")]) "title" = some (Json.str "T") :=
  ⟨(envelope_from_dashboard_key envLive "i"
      "\x7b\"dashboard\": \x7b\"title\": \"T\"\x7d\x7d" (pyStrip "sk-test") jRT
      rfl rfl rfl).trans rfl,
   rfl⟩

/-- C7: the parse stage tries `json.loads` directly, then the brace-span
extraction; a parse of the extracted span feeds the envelope step like a
direct parse, and a failed or impossible extraction yields a 502-class
`HTTPException` (no crash). -/
theorem parse_fallback_pipeline (env : Env) (intent content k : String)
    (hm : isMockEnabled env = false)
    (hk : get_openai_client env = Except.ok k) :
    (∀ j, json_loads content = some j →
        generate_dashboard env intent (Except.ok content) = envelopeStep j)
    ∧ (∀ span j, json_loads content = none → extractBraceSpan content = some span →
        json_loads span = some j →
        generate_dashboard env intent (Except.ok content) = envelopeStep j)
    ∧ (∀ span, json_loads content = none → extractBraceSpan content = some span →
        json_loads span = none →
        generate_dashboard env intent (Except.ok content)
          = HandlerResult.httpError
              ⟨502, "Model returned text but JSON extraction failed. Raw model output included."⟩)
    ∧ (json_loads content = none → extractBraceSpan content = none →
        generate_dashboard env intent (Except.ok content)
          = HandlerResult.httpError ⟨502, "Failed to parse JSON from model output."⟩) := by
  refine ⟨?_, ?_, ?_, ?_⟩
  · intro j h
    simp [generate_dashboard, hm, hk, parseModelOutput, h]
  · intro span j h1 h2 h3
    simp [generate_dashboard, hm, hk, parseModelOutput, h1, h2, h3]
  · intro span h1 h2 h3
    simp [generate_dashboard, hm, hk, parseModelOutput, h1, h2, h3]
  · intro h1 h2
    simp [generate_dashboard, hm, hk, parseModelOutput, h1, h2]

/-- Witness: prose around one JSON object still parses via extraction (and
feeds the envelope), while output with no JSON object is a 502, not a crash. -/
theorem parse_fallback_pipeline_witness :
    generate_dashboard envLive "i"
        (Except.ok "Here you go:\n\x7b\"dashboard\": \x7b\"title\": \"T\"\x7d\x7d\nThanks")
      = envelopeStep jRT
    ∧ envelopeStep jRT
        = HandlerResult.ok (Json.obj [("dashboard", Json.obj [("title", Json.str "T")])])
    ∧ generate_dashboard envLive "i" (Except.ok "I cannot produce a dashboard.")
        = HandlerResult.httpError ⟨502, "Failed to parse JSON from model output."⟩ :=
  ⟨(parse_fallback_pipeline envLive "i"
      "Here you go:\n\x7b\"dashboard\": \x7b\"title\": \"T\"\x7d\x7d\nThanks"
      (pyStrip "sk-test") rfl rfl).2.1
      "\x7b\"dashboard\": \x7b\"title\": \"T\"\x7d\x7d" jRT rfl rfl rfl,
   rfl,
   (parse_fallback_pipeline envLive "i" "I cannot produce a dashboard."
      (pyStrip "sk-test") rfl rfl).2.2.2 rfl rfl⟩

/-- C8: live mode with no resolvable credential (variable unset or empty,
fallback file missing or blank) is an HTTP 500 configuration error, for
EVERY upstream outcome — the completion call is never reached. -/
theorem missing_credential_500 (env : Env) (intent : String)
    (upstream : Except String String)
    (hm : isMockEnabled env = false)
    (hk : env.OPENAI_API_KEY = none ∨ env.OPENAI_API_KEY = some "")
    (hf : env.openai_key_txt = none ∨ ∃ c, env.openai_key_txt = some c ∧ pyStrip c = "") :
    generate_dashboard env intent upstream
      = HandlerResult.httpError ⟨500, keyMissingDetail⟩ := by
  have hload : load_openai_key env = none := by
    rcases hf with hf | ⟨c, hc, hstrip⟩ <;>
      rcases hk with hk | hk <;>
        simp [load_openai_key, readKeyFallback, hk, *]
  simp [generate_dashboard, hm, get_openai_client, hload]

/-- Witness: with nothing configured, the handler answers 500 even for an
upstream that would have succeeded. -/
theorem missing_credential_500_witness :
    generate_dashboard envNoKey "i" (Except.ok "\x7b\"dashboard\": null\x7d")
      = HandlerResult.httpError ⟨500, keyMissingDetail⟩ :=
  missing_credential_500 envNoKey "i" (Except.ok "\x7b\"dashboard\": null\x7d") rfl
    (Or.inl rfl) (Or.inl rfl)

/-- C9: `load_openai_key` resolves the environment variable first (stripped);
when the variable is unset or empty it falls back to the stripped fallback
file content, a missing or blank file yielding `None` — the embedding is a
total function, so nothing raises. -/
theorem load_openai_key_resolution (env : Env) :
    (∀ s, env.OPENAI_API_KEY = some s → s ≠ "" → load_openai_key env = some (pyStrip s))
    ∧ ((env.OPENAI_API_KEY = none ∨ env.OPENAI_API_KEY = some "") →
        load_openai_key env
          = match env.openai_key_txt with
            | some c => if pyStrip c = "" then none else some (pyStrip c)
            | none => none) := by
  constructor
  · intro s hs hne
    simp [load_openai_key, hs, hne]
  · intro h
    cases hfile : env.openai_key_txt <;>
      rcases h with h | h <;> simp [load_openai_key, readKeyFallback, h, hfile]

/-- Witness: a padded key from the variable is returned stripped; with
nothing set anywhere the result is `None`. -/
theorem load_openai_key_resolution_witness :
    load_openai_key envPad = some "sk" ∧ load_openai_key envNoKey = none :=
  ⟨((load_openai_key_resolution envPad).1 " sk " rfl (by decide)).trans rfl,
   ((load_openai_key_resolution envNoKey).2 (Or.inl rfl)).trans rfl⟩

/-- C10: a whitespace-only (non-empty) key variable is truthy, so
`load_openai_key` returns the stripped empty string without consulting the
fallback file — whatever that file holds — and `get_openai_client` then
raises the missing-credential 500. -/
theorem whitespace_key_masks_fallback (env : Env) (s : String)
    (hs : env.OPENAI_API_KEY = some s) (hne : s ≠ "") (hws : pyStrip s = "") :
    load_openai_key env = some ""
    ∧ get_openai_client env = Except.error ⟨500, keyMissingDetail⟩ := by
  have h1 : load_openai_key env = some "" := by
    simp [load_openai_key, hs, hne, hws]
  exact ⟨h1, by simp [get_openai_client, h1]⟩

/-- Witness: `OPENAI_API_KEY="   "` masks a valid key stored in the fallback
file and the client constructor fails with the 500 configuration error. -/
theorem whitespace_key_masks_fallback_witness :
    load_openai_key envWs = some ""
    ∧ get_openai_client envWs = Except.error ⟨500, keyMissingDetail⟩ :=
  whitespace_key_masks_fallback envWs "   " rfl (by decide) rfl

end DashGen
